import Mathlib

/-
Shallow embedding of lib/persistence.db.js (persistencejs).

Modelling conventions:
- JavaScript dynamic values are embedded as the inductive `JSValue`; entity
  instances live in an explicit heap (`Heap`, a list of reference/instance
  pairs) and are denoted by `JSValue.vRef`, which gives object identity.
- JavaScript objects used as string-keyed maps (`fields`, `data`,
  `_dirtyProperties`, `trackedObjects`, rows) are embedded as insertion-ordered
  association lists; `for (var p in o)` enumerates them in insertion order,
  which the association list preserves.
- Thrown JavaScript exceptions are embedded as `JSResult.err`; state and
  statement traces produced before a throw are kept (exceptions do not roll
  anything back), so stateful operations return `state × trace × result`
  rather than living in an exception monad.
- The asynchronous store driver is embedded synchronously: `transaction(fn)`
  emits a `beginTx` event and runs `fn`; `tx.executeSql(sql, args, cb)` emits
  `issue sql args` and then `complete sql`, and then runs the success
  continuation `cb`.  A statement's completion therefore appears in the trace
  before anything its success callback does, exactly mirroring the source's
  completion-chained sequencing.
- `createUUID()` is an external collaborator (the identifier generator); the
  fresh id is taken as an explicit argument wherever the source calls it.
- The module-level closure variable `trackedObjects` and the public property
  `persistence.trackedObjects` initially denote the same map object.  The
  state keeps a small heap of such map objects (`maps`) plus the reference
  each of the two names denotes, because `persistence.clean` rebinds only the
  public property.
-/

namespace PersistenceJS

/-- Dynamic JavaScript values, as far as the library manipulates them.
`vRef` is a reference into the entity-instance heap. -/
inductive JSValue where
  | vNull
  | vUndefined
  | vBool (b : Bool)
  | vNum (n : Int)
  | vStr (s : String)
  | vRef (r : Nat)
deriving DecidableEq

/-- JavaScript truthiness for the embedded values. -/
def truthy : JSValue → Bool
  | .vNull => false
  | .vUndefined => false
  | .vBool b => b
  | .vNum n => decide (n ≠ 0)
  | .vStr s => decide (s ≠ "")
  | .vRef _ => true

/-- JavaScript ToString, used for string concatenation and property keys. -/
def jsToString : JSValue → String
  | .vNull => "null"
  | .vUndefined => "undefined"
  | .vBool b => if b then "true" else "false"
  | .vNum n => toString n
  | .vStr s => s
  | .vRef _ => "[object Object]"

/-- Thrown JavaScript exceptions.  `unresolvedRelation name idStr` stands for
the string the hasOne getter throws (source: "Property ... with id: ... not
fetched, either prefetch it or fetch it manually."), carrying the relation
name and the stringified stored foreign key. -/
inductive JSError where
  | typeError (msg : String)
  | unresolvedRelation (relName : String) (idStr : String)
deriving DecidableEq

/-- Result of running a piece of JavaScript that may throw. -/
inductive JSResult (α : Type) where
  | ok (a : α)
  | err (e : JSError)
deriving DecidableEq

/-- Lookup in an insertion-ordered association list (JS property read). -/
def alookup {κ α : Type} [DecidableEq κ] : List (κ × α) → κ → Option α
  | [], _ => none
  | (k, v) :: rest, key => if k = key then some v else alookup rest key

/-- Update/insert in an insertion-ordered association list (JS property
write: an existing key keeps its position, a new key is appended). -/
def aset {κ α : Type} [DecidableEq κ] : List (κ × α) → κ → α → List (κ × α)
  | [], key, v => [(key, v)]
  | (k, v0) :: rest, key, v =>
      if k = key then (key, v) :: rest else (k, v0) :: aset rest key v

/-- `_dirtyProperties[f] = true`: the dirty map acts as an insertion-ordered
set of property names. -/
def dirtyAdd (dirty : List String) (name : String) : List String :=
  if name ∈ dirty then dirty else dirty ++ [name]

/-- Entity metadata, as built by `persistence.define` and `hasMany`:
field name to SQLite type tag, relation name to target entity name. -/
structure EntityMeta where
  name : String
  fields : List (String × String)
  hasOne : List (String × String)
  hasMany : List (String × String)
deriving DecidableEq

/-- An entity instance: the per-object state captured by the constructor in
`getEntity` (`_id`, `_type`, `_new`, `_dirtyProperties`, the closed-over
`data` and `data_obj` maps, and any plain properties assigned outside the
declared accessors). -/
structure EntityInstance where
  id : JSValue
  typ : String
  isNew : Bool
  dirty : List String
  data : List (String × JSValue)
  dataObj : List (String × JSValue)
  plain : List (String × JSValue)
deriving DecidableEq

/-- The heap of entity instances, giving object identity to `JSValue.vRef`. -/
abbrev Heap := List (Nat × EntityInstance)

/-- Reading `val._id`: throws on null/undefined; yields the instance id on a
heap reference; yields undefined on every other value. -/
def getIdProp (heap : Heap) : JSValue → JSResult JSValue
  | .vNull => .err (.typeError "Cannot read property _id of null")
  | .vUndefined => .err (.typeError "Cannot read property _id of undefined")
  | .vRef r => .ok ((alookup heap r).elim JSValue.vUndefined (fun o => o.id))
  | _ => .ok .vUndefined

/-- Source `persistence.entityValToDbVal(val, type)`:
`if (val === undefined) return null; else if (val._id) return val._id;
else if (type === 'BOOL') return val ? 1 : 0; else return val;`.
Note the undefined check precedes the `val._id` access, so a null `val`
reaches the property access and throws. -/
def entityValToDbVal (heap : Heap) (val ty : JSValue) : JSResult JSValue :=
  if val = .vUndefined then .ok .vNull
  else
    match getIdProp heap val with
    | .err e => .err e
    | .ok idv =>
        if truthy idv then .ok idv
        else if ty = .vStr "BOOL" then
          .ok (.vNum (if truthy val then 1 else 0))
        else .ok val

/-- Source `persistence.dbValToEntityVal(val, type)`: BOOL yields
`val === 1`, everything else passes through. -/
def dbValToEntityVal (val ty : JSValue) : JSValue :=
  if ty = .vStr "BOOL" then
    (if val = .vNum 1 then .vBool true else .vBool false)
  else val

/-- Property write `that[name] = val` on an instance.  Declared fields go
through the field setter (store in `data`, mark dirty).  Declared hasOne
relations go through the relation setter: `val == null` (loose, so null or
undefined) stores null in `data` — note the source does NOT touch
`data_obj` here; a value with a truthy `_id` stores that id in `data` and
the value itself in `data_obj`; anything else (a bare id) is stored in
`data` alone.  Other names become plain properties. -/
def setProp (heap : Heap) (meta : EntityMeta) (inst : EntityInstance)
    (name : String) (val : JSValue) : EntityInstance :=
  if (alookup meta.fields name).isSome then
    { inst with data := aset inst.data name val,
                dirty := dirtyAdd inst.dirty name }
  else if (alookup meta.hasOne name).isSome then
    if val = .vNull ∨ val = .vUndefined then
      { inst with data := aset inst.data name .vNull,
                  dirty := dirtyAdd inst.dirty name }
    else
      let idv := match getIdProp heap val with
                 | .ok v => v
                 | .err _ => .vUndefined
      if truthy idv then
        { inst with data := aset inst.data name idv,
                    dataObj := aset inst.dataObj name val,
                    dirty := dirtyAdd inst.dirty name }
      else
        { inst with data := aset inst.data name val,
                    dirty := dirtyAdd inst.dirty name }
  else { inst with plain := aset inst.plain name val }

/-- Property read `inst[name]`.  Field getter returns `data[name]`.  hasOne
getter returns `data_obj[name]` when truthy, otherwise throws the
not-fetched error carrying the relation name and the stringified stored
foreign key. -/
def getProp (meta : EntityMeta) (inst : EntityInstance) (name : String) :
    JSResult JSValue :=
  if (alookup meta.fields name).isSome then
    .ok ((alookup inst.data name).getD .vUndefined)
  else if (alookup meta.hasOne name).isSome then
    let cached := (alookup inst.dataObj name).getD .vUndefined
    if truthy cached then .ok cached
    else .err (.unresolvedRelation name
      (jsToString ((alookup inst.data name).getD .vUndefined)))
  else .ok ((alookup inst.plain name).getD .vUndefined)

/-- The constructor produced by `getEntity`: fresh id (from the external
`createUUID`, passed in as `uuid`), `_new = true`, empty maps, then every own
property of the initializer object is assigned through `setProp` in order. -/
def newInstance (heap : Heap) (meta : EntityMeta) (uuid : String)
    (init : List (String × JSValue)) : EntityInstance :=
  init.foldl (fun inst pv => setProp heap meta inst pv.1 pv.2)
    { id := .vStr uuid, typ := meta.name, isNew := true,
      dirty := [], data := [], dataObj := [], plain := [] }

/-- Module-level mutable state of the library.  `maps` is a small heap of
plain map objects; `closureTracked` is the map the closure variable
`trackedObjects` denotes (fixed at module load), `propTracked` the map the
public property `persistence.trackedObjects` denotes (rebound by `clean`). -/
structure PState where
  heap : Heap
  maps : List (Nat × List (String × Nat))
  closureTracked : Nat
  propTracked : Nat
  nextRef : Nat
deriving DecidableEq

/-- State right after module load: one empty tracked map, denoted by both
the closure variable and the public property. -/
def initState : PState :=
  { heap := [], maps := [(0, [])], closureTracked := 0, propTracked := 0,
    nextRef := 1 }

/-- The map the closure variable `trackedObjects` currently denotes — the
one every internal operation (`add`, `flush`, `rowToEntity`) consults. -/
def trackedMap (s : PState) : List (String × Nat) :=
  (alookup s.maps s.closureTracked).getD []

/-- `new Entity(init)` for a registered entity name: builds the instance via
the factory and allocates it on the heap, returning its reference. -/
def construct (registry : List EntityMeta) (s : PState)
    (entityName uuid : String) (init : List (String × JSValue)) :
    PState × JSResult Nat :=
  match registry.find? (fun m => m.name == entityName) with
  | none => (s, .err (.typeError "meta is undefined"))
  | some meta =>
      let inst := newInstance s.heap meta uuid init
      ({ s with heap := s.heap ++ [(s.nextRef, inst)],
                nextRef := s.nextRef + 1 },
       .ok s.nextRef)

/-- Source `persistence.add(obj)`:
`if (!trackedObjects[obj._id]) trackedObjects[obj._id] = obj;`. -/
def add (s : PState) (r : Nat) : PState :=
  match alookup s.heap r with
  | none => s
  | some obj =>
      let key := jsToString obj.id
      let m := trackedMap s
      if (alookup m key).isSome then s
      else { s with maps := aset s.maps s.closureTracked (m ++ [(key, r)]) }

/-- Source `persistence.clean()`:
`persistence.trackedObjects = {};` — rebinds the PUBLIC property to a fresh
empty map object; the closure variable `trackedObjects` (and hence
`trackedMap`) is untouched. -/
def clean (s : PState) : PState :=
  { s with maps := s.maps ++ [(s.nextRef, [])],
           propTracked := s.nextRef,
           nextRef := s.nextRef + 1 }

/-- Observable events at the store driver: transaction opened, statement
issued with its bound arguments (none stands for the JS null argument),
statement completed, user callback invoked. -/
inductive DbEvent where
  | beginTx
  | issue (sql : String) (args : Option (List JSValue))
  | complete (sql : String)
  | cbFired
deriving DecidableEq

/-- The single-quote character, used by the source inside UPDATE/DELETE SQL. -/
def sq : String := String.singleton (Char.ofNat 39)

/-- The INSERT statement string built by `save` (`props` are already
backticked except for the plain `id` the source pushes last). -/
def insertSql (typ : String) (props : List String) : String :=
  "INSERT INTO `" ++ typ ++ "` (" ++ String.intercalate ", " props ++
    ") VALUES (" ++ String.intercalate ", " (props.map (fun _ => "?")) ++ ")"

/-- The UPDATE statement string built by `save`. -/
def updateSql (typ : String) (props : List String) (idStr : String) : String :=
  "UPDATE `" ++ typ ++ "` SET " ++
    String.intercalate "," (props.map (fun p => p ++ " = ?")) ++
    " WHERE id = " ++ sq ++ idStr ++ sq

/-- The value-collection loop of `save`: for each dirty property name, read
it through its accessor and convert it with
`persistence.entityValToDbVal(obj[p])` — a single-argument call in the
source, so the type argument is undefined. -/
def saveCollect (heap : Heap) (meta : EntityMeta) (inst : EntityInstance) :
    List String → JSResult (List JSValue)
  | [] => .ok []
  | p :: rest =>
      match getProp meta inst p with
      | .err e => .err e
      | .ok v =>
          match entityValToDbVal heap v .vUndefined with
          | .err e => .err e
          | .ok dbv =>
              match saveCollect heap meta inst rest with
              | .err e => .err e
              | .ok vs => .ok (dbv :: vs)

/-- Source `save(obj, tx, callback)`.  Collects the dirty properties and
their converted values (the local `rowMeta = entityMeta[obj._type]` of the
source is bound but never used: conversion runs with an undefined type).
Empty dirty set: completes with no statement.  Otherwise clears the dirty
set, and issues one INSERT (new object, id column appended, `_new` flipped
to false) or one UPDATE (existing object, keyed by id). -/
def save (registry : List EntityMeta) (s : PState) (r : Nat) :
    PState × List DbEvent × JSResult Unit :=
  match alookup s.heap r with
  | none => (s, [], .err (.typeError "obj is undefined"))
  | some obj =>
      match registry.find? (fun m => m.name == obj.typ) with
      | none => (s, [], .err (.typeError "meta is undefined"))
      | some meta =>
          match saveCollect s.heap meta obj obj.dirty with
          | .err e => (s, [], .err e)
          | .ok vals =>
              let props := obj.dirty.map (fun p => "`" ++ p ++ "`")
              if props = [] then (s, [], .ok ())
              else if obj.isNew then
                let sql := insertSql obj.typ (props ++ ["id"])
                let obj2 := { obj with dirty := [], isNew := false }
                ({ s with heap := aset s.heap r obj2 },
                 [.issue sql (some (vals ++ [obj.id])), .complete sql],
                 .ok ())
              else
                let sql := updateSql obj.typ props (jsToString obj.id)
                let obj2 := { obj with dirty := [] }
                ({ s with heap := aset s.heap r obj2 },
                 [.issue sql (some vals), .complete sql],
                 .ok ())

/-- The `persistOneEntity` recursion of `flush`: saves each object in turn,
each save's completion triggering the next; after the last one the callback
runs only if present (`else if (callback) callback();`). -/
def flushLoop (registry : List EntityMeta) (hasCb : Bool) :
    List Nat → PState → PState × List DbEvent × JSResult Unit
  | [], s => if hasCb then (s, [.cbFired], .ok ()) else (s, [], .ok ())
  | r :: rest, s =>
      match save registry s r with
      | (s1, tr, .ok _) =>
          let res := flushLoop registry hasCb rest s1
          (res.1, tr ++ res.2.1, res.2.2)
      | (s1, tr, .err e) => (s1, tr, .err e)

/-- Source `persistence.flush(tx, callback)`: snapshots the tracked map's
values, pops them one at a time (hence reverse insertion order).  When the
snapshot is empty the source runs `callback();` WITHOUT a guard, so a
missing callback is a TypeError there. -/
def flush (registry : List EntityMeta) (s : PState) (hasCb : Bool) :
    PState × List DbEvent × JSResult Unit :=
  let objArray := (trackedMap s).map (fun kv => kv.2)
  if objArray = [] then
    if hasCb then (s, [.cbFired], .ok ())
    else (s, [], .err (.typeError "callback is not a function"))
  else flushLoop registry hasCb objArray.reverse s

/-- Source `persistence.rowToEntity(entityName, row, prefix)`: if the row's
id is already in the tracked map, returns that cached instance unchanged;
otherwise builds a fresh instance (fresh heap reference), overwrites its id
with the row id, clears `_new`, and assigns every prefixed row column
except `id` through the accessors after `dbValToEntityVal` conversion with
the field's declared type.  The fresh instance is NOT entered into the
tracked map. -/
def rowToEntity (registry : List EntityMeta) (s : PState)
    (entityName : String) (row : List (String × JSValue))
    (pfx : Option String) (uuid : String) : PState × JSResult JSValue :=
  let pfxs := pfx.getD ""
  let idVal := (alookup row (pfxs ++ "id")).getD .vUndefined
  match alookup (trackedMap s) (jsToString idVal) with
  | some r => (s, .ok (.vRef r))
  | none =>
      match registry.find? (fun m => m.name == entityName) with
      | none => (s, .err (.typeError "meta is undefined"))
      | some meta =>
          let o0 := newInstance s.heap meta uuid []
          let o1 := { o0 with id := idVal, isNew := false }
          let o2 := row.foldl (fun inst pv =>
            if pv.1.take pfxs.length = pfxs then
              let prop := pv.1.drop pfxs.length
              if prop = "id" then inst
              else
                let ftype := (alookup meta.fields prop).elim
                  JSValue.vUndefined JSValue.vStr
                setProp s.heap meta inst prop (dbValToEntityVal pv.2 ftype)
            else inst) o1
          ({ s with heap := s.heap ++ [(s.nextRef, o2)],
                    nextRef := s.nextRef + 1 },
           .ok (.vRef s.nextRef))

/-- The CREATE TABLE statement built by `createOneEntityTable`: declared
fields then one VARCHAR(255) column per hasOne relation, trailing comma and
space dropped, wrapped with the fixed id primary-key column. -/
def createTableSql (meta : EntityMeta) : String :=
  let rowDef0 := meta.fields.foldl
    (fun acc fv => acc ++ fv.1 ++ " " ++ fv.2 ++ ", ") ""
  let rowDef1 := meta.hasOne.foldl
    (fun acc rv => acc ++ rv.1 ++ " VARCHAR(255), ") rowDef0
  "CREATE TABLE IF NOT EXISTS `" ++ meta.name ++
    "` ( id VARCHAR(32) PRIMARY KEY, " ++ rowDef1.dropRight 2 ++ ")"

/-- The `createOneEntityTable` recursion: pop one entity, OPEN A NEW
TRANSACTION for it (`persistence._conn.transaction(...)` is inside the
recursion), issue its CREATE TABLE, and on completion either recurse or run
the callback if present.  Popping from an empty array yields undefined and
the subsequent `meta.fields` access throws. -/
def schemaSyncGo (hasCb : Bool) : List EntityMeta → List DbEvent × JSResult Unit
  | [] => ([], .err (.typeError "meta is undefined"))
  | meta :: rest =>
      let sql := createTableSql meta
      let tail :=
        if rest = [] then
          (if hasCb then ([DbEvent.cbFired], JSResult.ok ())
           else ([], JSResult.ok ()))
        else schemaSyncGo hasCb rest
      (DbEvent.beginTx :: DbEvent.issue sql none :: DbEvent.complete sql ::
        tail.1, tail.2)

/-- Source `persistence.schemaSync(callback)`: collects the registered
entities in registration order, then processes them by popping from the end
of the array — i.e. in reverse registration order. -/
def schemaSync (registry : List EntityMeta) (hasCb : Bool) :
    List DbEvent × JSResult Unit :=
  schemaSyncGo hasCb registry.reverse

/-- Whether a JavaScript computation completed without throwing. -/
def JSResult.isOk {α : Type} : JSResult α → Bool
  | .ok _ => true
  | .err _ => false

/-- Recognizer for transaction-open events, used to count transactions. -/
def isBeginTx : DbEvent → Bool
  | .beginTx => true
  | _ => false

/- Concrete entities and states used to evaluate the code on explicit
inputs. -/

/-- `persistence.define('Person', {name: "TEXT"})`. -/
def personMeta : EntityMeta :=
  { name := "Person", fields := [("name", "TEXT")], hasOne := [], hasMany := [] }

/-- A result row for a Person with id "aaa". -/
def c1row : List (String × JSValue) :=
  [("id", .vStr "aaa"), ("name", .vStr "Alice")]

/-- A session in which a Person object with id "aaa" was constructed and
registered with `persistence.add`. -/
def c1wState : PState :=
  add (construct [personMeta] initState "Person" "aaa"
    [("name", JSValue.vStr "Bob")]).1 1

/-- `persistence.define('Task', {done: "BOOL"})`. -/
def boolMeta : EntityMeta :=
  { name := "Task", fields := [("done", "BOOL")], hasOne := [], hasMany := [] }

/-- A session holding a new Task whose BOOL field `done` was set to true. -/
def c2state : PState :=
  (construct [boolMeta] initState "Task" "t-uuid"
    [("done", JSValue.vBool true)]).1

/-- `persistence.define('Person', {name: "TEXT", age: "INT"})`. -/
def textMeta : EntityMeta :=
  { name := "Person", fields := [("name", "TEXT"), ("age", "INT")],
    hasOne := [], hasMany := [] }

/-- A new Person whose `name` field was assigned the JavaScript null. -/
def c7nullObj : EntityInstance :=
  newInstance [] textMeta "u-person" [("name", JSValue.vNull)]

/-- The session holding `c7nullObj` (heap reference 1). -/
def c7state : PState :=
  (construct [textMeta] initState "Person" "u-person"
    [("name", JSValue.vNull)]).1

/-- A new Person whose `name` field was assigned "Alice". -/
def c7obj : EntityInstance :=
  newInstance [] textMeta "u1" [("name", JSValue.vStr "Alice")]

/-- The session holding `c7obj` (heap reference 1). -/
def c7wState : PState :=
  (construct [textMeta] initState "Person" "u1"
    [("name", JSValue.vStr "Alice")]).1

/-- `Pet` with a TEXT field and a hasOne relation `owner` (as installed by
`Person.hasMany('pets', Pet, 'owner')`). -/
def petMeta : EntityMeta :=
  { name := "Pet", fields := [("nick", "TEXT")],
    hasOne := [("owner", "Person")], hasMany := [] }

/-- A constructed Person instance serving as a relation target. -/
def ownerInst : EntityInstance :=
  newInstance [] personMeta "p1-uuid" [("name", JSValue.vStr "Alice")]

/-- A heap in which `ownerInst` lives at reference 1. -/
def c3heap : Heap := [(1, ownerInst)]

/-- A Pet whose `owner` relation was assigned the Person at reference 1 and
then assigned null. -/
def petC : EntityInstance :=
  setProp c3heap petMeta
    (setProp c3heap petMeta (newInstance c3heap petMeta "pet-uuid" [])
      "owner" (.vRef 1))
    "owner" .vNull

/-- A session holding a new dirty Person with id "aaa-uuid". -/
def c4s1 : PState :=
  (construct [personMeta] initState "Person" "aaa-uuid"
    [("name", JSValue.vStr "Bob")]).1

/-- The same session after `persistence.add` and then `persistence.clean`. -/
def c4s3 : PState := clean (add c4s1 1)

/-- Entity "A" with one INT field. -/
def metaA : EntityMeta :=
  { name := "A", fields := [("x", "INT")], hasOne := [], hasMany := [] }

/-- Entity "B" with one INT field. -/
def metaB : EntityMeta :=
  { name := "B", fields := [("y", "INT")], hasOne := [], hasMany := [] }

/-- `Pet` with only the hasOne relation `owner`. -/
def petMeta2 : EntityMeta :=
  { name := "Pet", fields := [], hasOne := [("owner", "Person")],
    hasMany := [] }

/-- A Pet whose `owner` relation was assigned a bare id string (setter case
(c): foreign key stored, no cached target). -/
def c9obj : EntityInstance :=
  newInstance [] petMeta2 "u-pet" [("owner", JSValue.vStr "someid")]

/-- The session holding `c9obj` (heap reference 1). -/
def c9state : PState :=
  (construct [petMeta2] initState "Pet" "u-pet"
    [("owner", JSValue.vStr "someid")]).1

/-- The same session with `c9obj` registered via `persistence.add`. -/
def c9tracked : PState := add c9state 1

/-- A session tracking one clean (empty dirty set) Person instance. -/
def c10state : PState :=
  add (construct [textMeta] initState "Person" "u1" []).1 1

/- Helper lemmas. -/

/-- Updating a key and then reading it back yields the written value. -/
theorem alookup_aset {κ α : Type} [DecidableEq κ]
    (l : List (κ × α)) (k : κ) (v : α) :
    alookup (aset l k v) k = some v := by
  induction l with
  | nil => simp [aset, alookup]
  | cons kv rest ih =>
      by_cases h : kv.1 = k
      · simp [aset, alookup, h]
      · simp [aset, alookup, h, ih]

/-- A computation with `isOk` produced some value. -/
theorem isOk_exists {α : Type} (x : JSResult α) (h : x.isOk = true) :
    ∃ w, x = .ok w := by
  cases x with
  | ok a => exact ⟨a, rfl⟩
  | err e => simp [JSResult.isOk] at h

/-- `entityValToDbVal` can only throw when its value argument is the
JavaScript null: every other value converts without failure. -/
theorem entityValToDbVal_ok_of_not_null (heap : Heap) (v ty : JSValue)
    (h1 : v ≠ .vNull) (h2 : v ≠ .vUndefined) :
    (entityValToDbVal heap v ty).isOk = true := by
  cases v with
  | vNull => exact absurd rfl h1
  | vUndefined => exact absurd rfl h2
  | vBool b =>
      by_cases hty : ty = .vStr "BOOL" <;>
        simp [entityValToDbVal, getIdProp, truthy, JSResult.isOk, hty]
  | vNum n =>
      by_cases hty : ty = .vStr "BOOL" <;>
        simp [entityValToDbVal, getIdProp, truthy, JSResult.isOk, hty]
  | vStr s =>
      by_cases hty : ty = .vStr "BOOL" <;>
        simp [entityValToDbVal, getIdProp, truthy, JSResult.isOk, hty]
  | vRef r =>
      by_cases htr :
          truthy ((alookup heap r).elim JSValue.vUndefined (fun o => o.id)) = true <;>
        by_cases hty : ty = .vStr "BOOL" <;>
          simp [entityValToDbVal, getIdProp, JSResult.isOk, htr, hty]

/- Claim theorems. -/

/-- C1 counterexample: materializing the same row (id "aaa") twice from a
session whose identity cache does not already hold that id yields two
DISTINCT objects (heap references 1 and 2), because `rowToEntity` never
enters the instance it builds into the cache.  This refutes the claim that
the two calls return the identical object. -/
theorem c1_rowToEntity_twice_distinct :
    (rowToEntity [personMeta] initState "Person" c1row none "u1").2 =
      .ok (.vRef 1) ∧
    (rowToEntity [personMeta]
        (rowToEntity [personMeta] initState "Person" c1row none "u1").1
        "Person" c1row none "u2").2 = .ok (.vRef 2) ∧
    JSValue.vRef 1 ≠ JSValue.vRef 2 := by
  decide

/-- C2: with `Task.done` declared BOOL and set to true, `save` issues the
insert with the bound value `true` itself — not 1 — because the source calls
`entityValToDbVal(obj[p])` without the type argument (its `rowMeta` local is
never used); converting with the declared type would have produced 1. -/
theorem c2_save_drops_declared_type :
    (save [boolMeta] c2state 1).2.1 =
      [DbEvent.issue (insertSql "Task" ["`done`", "id"])
         (some [JSValue.vBool true, JSValue.vStr "t-uuid"]),
       DbEvent.complete (insertSql "Task" ["`done`", "id"])] ∧
    entityValToDbVal [] (.vBool true) (.vStr "BOOL") = .ok (.vNum 1) ∧
    JSValue.vBool true ≠ JSValue.vNum 1 := by
  decide

/-- C3: after assigning a Pet's `owner` relation a resolved Person (heap
reference 1) and then assigning null, the stored foreign key is null and the
relation is dirty, but the getter still returns the previously cached
target, because the setter's null branch never clears `data_obj`. -/
theorem c3_null_write_keeps_cached_target :
    alookup petC.data "owner" = some .vNull ∧
    petC.dirty = ["owner"] ∧
    getProp petMeta petC "owner" = .ok (.vRef 1) := by
  decide

/-- C4: after `persistence.clean`, the map consulted by add/flush/rowToEntity
(the closure variable) still holds the tracked Person: `rowToEntity` for a
row with the same id returns the cached instance instead of building a fresh
one, and `flush` still issues its insert; only the public
`persistence.trackedObjects` property was rebound to a fresh empty map. -/
theorem c4_clean_leaves_internal_cache :
    trackedMap c4s3 = [("aaa-uuid", 1)] ∧
    (rowToEntity [personMeta] c4s3 "Person" [("id", JSValue.vStr "aaa-uuid")]
      none "u9").2 = .ok (.vRef 1) ∧
    (flush [personMeta] c4s3 true).2.1 ≠ [] ∧
    alookup c4s3.maps c4s3.propTracked = some [] := by
  decide

/-- C5 counterexample: synchronizing two registered entities opens TWO
transactions (one per entity — `persistence._conn.transaction` is called
inside the per-entity recursion), refuting "all inside a single
transaction". -/
theorem c5_two_entities_two_transactions :
    ((schemaSync [metaA, metaB] true).1.countP isBeginTx) = 2 := by
  decide

/-- C6 counterexample: a null input does not convert to storage null — the
source only tests `val === undefined`, so null reaches the `val._id` access
and throws a TypeError. -/
theorem c6_null_input_throws :
    entityValToDbVal [] .vNull (.vStr "TEXT") =
      .err (.typeError "Cannot read property _id of null") ∧
    entityValToDbVal [] .vNull (.vStr "TEXT") ≠ .ok .vNull := by
  decide

/-- C7 counterexample: a Transient Person (isNew = true) with non-empty
dirtySet {name} whose dirty value is the JavaScript null makes `save` throw
during value conversion: no insert is issued, the state is unchanged, and
isNew stays true — refuting the unconditional claim. -/
theorem c7_null_dirty_value_aborts_save :
    alookup c7state.heap 1 = some c7nullObj ∧
    c7nullObj.isNew = true ∧
    c7nullObj.dirty = ["name"] ∧
    save [textMeta] c7state 1 =
      (c7state, [], .err (.typeError "Cannot read property _id of null")) := by
  decide

/-- C8: the BOOL conversions are exact inverses over {0,1} ↔ {false,true}:
`toStorage(fromStorage(v, BOOL), BOOL) = toStorage(v, BOOL)` for v in {0,1},
with the underlying bijection spelled out. -/
theorem c8_bool_roundtrip :
    entityValToDbVal [] (dbValToEntityVal (.vNum 0) (.vStr "BOOL")) (.vStr "BOOL") =
      entityValToDbVal [] (.vNum 0) (.vStr "BOOL") ∧
    entityValToDbVal [] (dbValToEntityVal (.vNum 1) (.vStr "BOOL")) (.vStr "BOOL") =
      entityValToDbVal [] (.vNum 1) (.vStr "BOOL") ∧
    dbValToEntityVal (.vNum 0) (.vStr "BOOL") = .vBool false ∧
    dbValToEntityVal (.vNum 1) (.vStr "BOOL") = .vBool true ∧
    entityValToDbVal [] (.vBool false) (.vStr "BOOL") = .ok (.vNum 0) ∧
    entityValToDbVal [] (.vBool true) (.vStr "BOOL") = .ok (.vNum 1) := by
  decide

/-- C1 amended: row materialization deduplicates only against instances
already registered in the identity cache.  (1) If the row's id is already
cached, `rowToEntity` returns that cached instance as-is and changes
nothing, so repeated calls return the identical object and the row's column
values are discarded.  (2) If the id is not cached, each call builds a
fresh, distinct instance (a new heap reference) and does NOT register it,
so repeated materializations of an uncached id yield distinct objects. -/
theorem c1_amended_cache_hit_identity :
    (∀ (registry : List EntityMeta) (s : PState) (entityName : String)
       (row : List (String × JSValue)) (pfx : Option String)
       (uuid : String) (r : Nat),
      alookup (trackedMap s)
          (jsToString ((alookup row ((pfx.getD "") ++ "id")).getD .vUndefined)) =
        some r →
      rowToEntity registry s entityName row pfx uuid = (s, .ok (.vRef r))) ∧
    (∀ (registry : List EntityMeta) (s : PState) (entityName : String)
       (row : List (String × JSValue)) (pfx : Option String)
       (uuid : String) (meta : EntityMeta),
      alookup (trackedMap s)
          (jsToString ((alookup row ((pfx.getD "") ++ "id")).getD .vUndefined)) =
        none →
      registry.find? (fun m => m.name == entityName) = some meta →
      (rowToEntity registry s entityName row pfx uuid).2 =
        .ok (.vRef s.nextRef) ∧
      (rowToEntity registry s entityName row pfx uuid).1.nextRef =
        s.nextRef + 1 ∧
      trackedMap (rowToEntity registry s entityName row pfx uuid).1 =
        trackedMap s) := by
  constructor
  · intro registry s entityName row pfx uuid r hc
    simp [rowToEntity, hc]
  · intro registry s entityName row pfx uuid meta hc hmeta
    simp only [trackedMap] at hc
    simp [rowToEntity, trackedMap, hc, hmeta]

/-- C1 witness: in a session where a Person with id "aaa" was tracked,
materializing a row with id "aaa" returns exactly the cached instance. -/
theorem c1_amended_cache_hit_identity_witness :
    rowToEntity [personMeta] c1wState "Person"
        [("id", JSValue.vStr "aaa")] none "u9" = (c1wState, .ok (.vRef 1)) :=
  c1_amended_cache_hit_identity.1 [personMeta] c1wState "Person"
    [("id", JSValue.vStr "aaa")] none "u9" 1 (by decide)

/-- The per-entity recursion of `schemaSync` on a non-empty worklist emits,
for each entity in order: open a transaction, issue its CREATE TABLE,
complete it — and fires the callback exactly once at the very end. -/
theorem schemaSyncGo_trace (l : List EntityMeta) (hne : l ≠ []) :
    schemaSyncGo true l =
      ((l.map (fun m => [DbEvent.beginTx, DbEvent.issue (createTableSql m) none,
        DbEvent.complete (createTableSql m)])).flatten ++ [DbEvent.cbFired],
       .ok ()) := by
  induction l with
  | nil => exact absurd rfl hne
  | cons m rest ih =>
      by_cases hr : rest = []
      · subst hr; simp [schemaSyncGo]
      · simp [schemaSyncGo, hr, ih hr]

/-- C5 amended: for every NON-EMPTY registry, schemaSync issues exactly one
create-table-if-not-exists statement per entity, each inside its OWN freshly
opened transaction (one transaction per entity, not a single shared one),
strictly sequentially — each statement's completion precedes the opening of
the next entity's transaction in the trace — and the callback fires exactly
once, after the last entity's statement completes.  Entities are processed
in reverse registration order.  (With an empty registry the source pops
undefined and throws.) -/
theorem c5_amended_schemaSync_trace (registry : List EntityMeta)
    (hne : registry ≠ []) :
    schemaSync registry true =
      ((registry.reverse.map (fun m =>
          [DbEvent.beginTx, DbEvent.issue (createTableSql m) none,
           DbEvent.complete (createTableSql m)])).flatten ++ [DbEvent.cbFired],
       .ok ()) :=
  schemaSyncGo_trace registry.reverse (by simpa using hne)

/-- C5 witness: the trace for the single registered entity "A". -/
theorem c5_amended_schemaSync_trace_witness :
    schemaSync [metaA] true =
      (([metaA].reverse.map (fun m =>
          [DbEvent.beginTx, DbEvent.issue (createTableSql m) none,
           DbEvent.complete (createTableSql m)])).flatten ++ [DbEvent.cbFired],
       .ok ()) :=
  c5_amended_schemaSync_trace [metaA] (by decide)

/-- C6 amended: `entityValToDbVal` maps undefined (but NOT null, which
throws a TypeError) to storage null, maps a related-entity instance with a
truthy id to that id, maps BOOL-typed booleans to 1/0, and passes every
other non-entity value of a non-BOOL type through unchanged. -/
theorem c6_amended_entityValToDbVal_characterization :
    (∀ (heap : Heap) (ty : JSValue),
      entityValToDbVal heap .vUndefined ty = .ok .vNull) ∧
    (∀ (heap : Heap) (ty : JSValue),
      entityValToDbVal heap .vNull ty =
        .err (.typeError "Cannot read property _id of null")) ∧
    (∀ (heap : Heap) (ty : JSValue) (r : Nat) (inst : EntityInstance),
      alookup heap r = some inst → truthy inst.id = true →
      entityValToDbVal heap (.vRef r) ty = .ok inst.id) ∧
    (∀ (heap : Heap) (b : Bool),
      entityValToDbVal heap (.vBool b) (.vStr "BOOL") =
        .ok (.vNum (if b then 1 else 0))) ∧
    (∀ (heap : Heap) (v ty : JSValue), v ≠ .vUndefined → v ≠ .vNull →
      (∀ r, v ≠ .vRef r) → ty ≠ .vStr "BOOL" →
      entityValToDbVal heap v ty = .ok v) := by
  refine ⟨fun heap ty => rfl, fun heap ty => rfl, ?_, ?_, ?_⟩
  · intro heap ty r inst hr hid
    simp [entityValToDbVal, getIdProp, hr, hid]
  · intro heap b
    cases b <;> simp [entityValToDbVal, getIdProp, truthy]
  · intro heap v ty h1 h2 h3 h4
    cases v with
    | vNull => exact absurd rfl h2
    | vUndefined => exact absurd rfl h1
    | vRef r => exact absurd rfl (h3 r)
    | vBool b => simp [entityValToDbVal, getIdProp, truthy, h4]
    | vNum n => simp [entityValToDbVal, getIdProp, truthy, h4]
    | vStr s => simp [entityValToDbVal, getIdProp, truthy, h4]

/-- C6 witness: a related Person instance on the heap converts to its id. -/
theorem c6_amended_entityValToDbVal_characterization_witness :
    entityValToDbVal [(1, ownerInst)] (.vRef 1) (.vStr "TEXT") =
      .ok ownerInst.id :=
  c6_amended_entityValToDbVal_characterization.2.2.1 [(1, ownerInst)]
    (.vStr "TEXT") 1 ownerInst (by decide) (by decide)

/-- C7 amended: whenever `save` on a Transient instance (isNew = true) with
a non-empty dirtySet completes without throwing (every dirty property reads
and converts successfully), it issues exactly one insert whose column list
is precisely the backticked dirty names plus the id column, and flips isNew
to false while clearing the dirty set.  (When a dirty value is null or a
dirty hasOne relation has no cached target, `save` throws before issuing
anything — see the counterexample.) -/
theorem c7_amended_transient_save_insert (registry : List EntityMeta)
    (s : PState) (r : Nat) (obj : EntityInstance) (meta : EntityMeta)
    (hobj : alookup s.heap r = some obj)
    (hmeta : registry.find? (fun m => m.name == obj.typ) = some meta)
    (hnew : obj.isNew = true)
    (hdirty : obj.dirty ≠ [])
    (hok : (save registry s r).2.2 = .ok ()) :
    ∃ vals, saveCollect s.heap meta obj obj.dirty = .ok vals ∧
      (save registry s r).2.1 =
        [DbEvent.issue
           (insertSql obj.typ
             (obj.dirty.map (fun p => "`" ++ p ++ "`") ++ ["id"]))
           (some (vals ++ [obj.id])),
         DbEvent.complete
           (insertSql obj.typ
             (obj.dirty.map (fun p => "`" ++ p ++ "`") ++ ["id"]))] ∧
      alookup (save registry s r).1.heap r =
        some { obj with dirty := [], isNew := false } := by
  cases hsc : saveCollect s.heap meta obj obj.dirty with
  | err e => simp [save, hobj, hmeta, hsc] at hok
  | ok vals =>
      refine ⟨vals, rfl, ?_, ?_⟩ <;>
        simp [save, hobj, hmeta, hsc, hnew, hdirty, alookup_aset]

/-- C7 witness: saving a fresh Person with dirty set {name} issues the
insert with columns name and id and flips isNew. -/
theorem c7_amended_transient_save_insert_witness :
    ∃ vals, saveCollect c7wState.heap textMeta c7obj c7obj.dirty = .ok vals ∧
      (save [textMeta] c7wState 1).2.1 =
        [DbEvent.issue
           (insertSql c7obj.typ
             (c7obj.dirty.map (fun p => "`" ++ p ++ "`") ++ ["id"]))
           (some (vals ++ [c7obj.id])),
         DbEvent.complete
           (insertSql c7obj.typ
             (c7obj.dirty.map (fun p => "`" ++ p ++ "`") ++ ["id"]))] ∧
      alookup (save [textMeta] c7wState 1).1.heap 1 =
        some { c7obj with dirty := [], isNew := false } :=
  c7_amended_transient_save_insert [textMeta] c7wState 1 c7obj textMeta
    (by decide) (by decide) (by decide) (by decide) (by decide)

/-- If every dirty name is a declared field whose value converts, or a
hasOne relation, and at least one dirty hasOne relation has no (truthy)
cached target, then the value-collection loop of `save` throws the
not-fetched error — before any value list is produced. -/
theorem saveCollect_unresolved (heap : Heap) (meta : EntityMeta)
    (inst : EntityInstance) (l : List String)
    (hdecl : ∀ p ∈ l, (alookup meta.fields p).isSome = true ∨
      (alookup meta.hasOne p).isSome = true)
    (hfield : ∀ p ∈ l, (alookup meta.fields p).isSome = true →
      (entityValToDbVal heap ((alookup inst.data p).getD .vUndefined)
        .vUndefined).isOk = true)
    (hbad : ∃ p ∈ l, (alookup meta.fields p).isSome = false ∧
      truthy ((alookup inst.dataObj p).getD .vUndefined) = false) :
    ∃ a b, saveCollect heap meta inst l = .err (.unresolvedRelation a b) := by
  induction l with
  | nil => simp at hbad
  | cons p rest ih =>
      by_cases hf : (alookup meta.fields p).isSome = true
      · obtain ⟨w, hw⟩ := isOk_exists _ (hfield p (by simp) hf)
        obtain ⟨q, hq, hq1, hq2⟩ := hbad
        have hqr : q ∈ rest := by
          rcases List.mem_cons.mp hq with h | h
          · rw [h] at hq1; rw [hq1] at hf; exact absurd hf (by simp)
          · exact h
        obtain ⟨a, b, hrec⟩ := ih
          (fun x hx => hdecl x (List.mem_cons_of_mem p hx))
          (fun x hx => hfield x (List.mem_cons_of_mem p hx))
          ⟨q, hqr, hq1, hq2⟩
        exact ⟨a, b, by simp [saveCollect, getProp, hf, hw, hrec]⟩
      · have hf0 : (alookup meta.fields p).isSome = false := by
          simpa using hf
        have hh1 : (alookup meta.hasOne p).isSome = true :=
          (hdecl p (by simp)).resolve_left (by simp [hf0])
        by_cases hres :
            truthy ((alookup inst.dataObj p).getD .vUndefined) = true
        · have hcv : (alookup inst.dataObj p).getD .vUndefined ≠ .vNull := by
            intro h; rw [h] at hres; exact absurd hres (by simp [truthy])
          have hcu :
              (alookup inst.dataObj p).getD .vUndefined ≠ .vUndefined := by
            intro h; rw [h] at hres; exact absurd hres (by simp [truthy])
          obtain ⟨w, hw⟩ := isOk_exists _
            (entityValToDbVal_ok_of_not_null heap _ .vUndefined hcv hcu)
          obtain ⟨q, hq, hq1, hq2⟩ := hbad
          have hqr : q ∈ rest := by
            rcases List.mem_cons.mp hq with h | h
            · rw [h] at hq2; rw [hq2] at hres; exact absurd hres (by simp)
            · exact h
          obtain ⟨a, b, hrec⟩ := ih
            (fun x hx => hdecl x (List.mem_cons_of_mem p hx))
            (fun x hx => hfield x (List.mem_cons_of_mem p hx))
            ⟨q, hqr, hq1, hq2⟩
          exact ⟨a, b, by simp [saveCollect, getProp, hf0, hh1, hres, hw, hrec]⟩
        · have hres0 :
              truthy ((alookup inst.dataObj p).getD .vUndefined) = false := by
            simpa using hres
          exact ⟨p, jsToString ((alookup inst.data p).getD .vUndefined),
            by simp [saveCollect, getProp, hf0, hh1, hres0]⟩

/-- C9: an instance whose dirty set contains a hasOne relation that was
assigned a bare id (foreign key stored, no cached target) cannot be
persisted: `save` reads each dirty property through its accessor, the
hasOne getter throws the not-fetched (UnresolvedRelation) error, and `save`
fails BEFORE issuing any statement, leaving the state (including the dirty
set) unchanged; `flush` over a tracked set holding that instance fails the
same way with no statement issued. -/
theorem c9_bare_id_relation_blocks_save (registry : List EntityMeta)
    (s : PState) (r : Nat) (key : String)
    (obj : EntityInstance) (meta : EntityMeta)
    (hobj : alookup s.heap r = some obj)
    (hmeta : registry.find? (fun m => m.name == obj.typ) = some meta)
    (hdecl : ∀ p ∈ obj.dirty, (alookup meta.fields p).isSome = true ∨
      (alookup meta.hasOne p).isSome = true)
    (hfield : ∀ p ∈ obj.dirty, (alookup meta.fields p).isSome = true →
      (entityValToDbVal s.heap ((alookup obj.data p).getD .vUndefined)
        .vUndefined).isOk = true)
    (hbad : ∃ p ∈ obj.dirty, (alookup meta.fields p).isSome = false ∧
      (alookup obj.data p).isSome = true ∧
      truthy ((alookup obj.dataObj p).getD .vUndefined) = false)
    (htr : trackedMap s = [(key, r)]) :
    (∃ a b, save registry s r = (s, [], .err (.unresolvedRelation a b))) ∧
    (∃ a b, flush registry s true = (s, [], .err (.unresolvedRelation a b))) := by
  obtain ⟨a, b, hsc⟩ := saveCollect_unresolved s.heap meta obj obj.dirty
    hdecl hfield
    (by obtain ⟨p, hp, h1, _, h3⟩ := hbad; exact ⟨p, hp, h1, h3⟩)
  have hsave : save registry s r = (s, [], .err (.unresolvedRelation a b)) := by
    simp [save, hobj, hmeta, hsc]
  refine ⟨⟨a, b, hsave⟩, ⟨a, b, ?_⟩⟩
  simp [flush, htr, flushLoop, hsave]

/-- C9 witness: a Pet whose `owner` was assigned the bare id "someid" and
which was registered with `add`: save and flush both fail with the
not-fetched error and issue nothing. -/
theorem c9_bare_id_relation_blocks_save_witness :
    (∃ a b, save [petMeta2] c9tracked 1 =
      (c9tracked, [], .err (.unresolvedRelation a b))) ∧
    (∃ a b, flush [petMeta2] c9tracked true =
      (c9tracked, [], .err (.unresolvedRelation a b))) :=
  c9_bare_id_relation_blocks_save [petMeta2] c9tracked 1 "u-pet" c9obj
    petMeta2 (by decide) (by decide) (by decide) (by decide) (by decide)
    (by decide)

/-- C10: with an empty tracked set, `flush` invokes its callback argument
unconditionally — absent callback it throws a TypeError, present callback
it fires with no statement issued — whereas with a non-empty tracked set
the final callback is guarded, so a missing callback is harmless (shown
for a tracked clean instance: flush completes, no statement, no throw). -/
theorem c10_flush_empty_requires_callback (registry : List EntityMeta)
    (s : PState) :
    (trackedMap s = [] →
      flush registry s false =
        (s, [], .err (.typeError "callback is not a function")) ∧
      flush registry s true = (s, [.cbFired], .ok ())) ∧
    (∀ (k : String) (r : Nat) (obj : EntityInstance) (meta : EntityMeta),
      trackedMap s = [(k, r)] →
      alookup s.heap r = some obj →
      registry.find? (fun m => m.name == obj.typ) = some meta →
      obj.dirty = [] →
      flush registry s false = (s, [], .ok ())) := by
  refine ⟨fun h => ⟨by simp [flush, h], by simp [flush, h]⟩, ?_⟩
  intro k r obj meta htr hobj hmeta hdirty
  have hsave : save registry s r = (s, [], .ok ()) := by
    simp [save, hobj, hmeta, hdirty, saveCollect]
  simp [flush, htr, flushLoop, hsave]

/-- C10 witness: flushing a fresh session without a callback throws;
flushing a session tracking one clean instance without a callback is fine
(and issues nothing). -/
theorem c10_flush_empty_requires_callback_witness :
    flush [] initState false =
      (initState, [], .err (.typeError "callback is not a function")) ∧
    flush [textMeta] c10state false = (c10state, [], .ok ()) :=
  ⟨((c10_flush_empty_requires_callback [] initState).1 (by decide)).1,
   (c10_flush_empty_requires_callback [textMeta] c10state).2 "u1" 1
     (newInstance [] textMeta "u1" []) textMeta (by decide) (by decide)
     (by decide) (by decide)⟩

end PersistenceJS
